import Mathlib

/-!
Verification of the go-bsbmp BME680/BMP388 sensor driver ("variant C") against
its natural-language specification.  The Go source is shallowly embedded:
machine integers are modelled as `Nat`/`Int` with explicit wrap-around
(`% 2^w`), Go's truncating integer division is `Int.tdiv`, fallible bus I/O
is modelled by `Option`, and each driver routine additionally exposes the
list of bus operations it issues so that protocol-level claims (what is
written or read, and in which order) can be stated.
-/

/-- Value of a Go `uint8` stored in a `Nat` field. -/
def byteVal (b : Nat) : Nat := b % 256

/-- Go conversion of a byte pattern to `int8` (two's complement reinterpretation). -/
def int8val (b : Nat) : Int :=
  if b % 256 < 128 then ((b % 256 : Nat) : Int) else ((b % 256 : Nat) : Int) - 256

/-- Go conversion of a 16-bit pattern to `int16` (two's complement reinterpretation). -/
def int16val (n : Nat) : Int :=
  if n % 65536 < 32768 then ((n % 65536 : Nat) : Int) else ((n % 65536 : Nat) : Int) - 65536

/-- Go conversion of a signed value to `uint16` (low 16 bits of the two's complement form). -/
def uint16ofInt (x : Int) : Nat := (x % 65536).toNat

/-- Go conversion of a signed value to `uint64` (low 64 bits of the two's complement form). -/
def uint64ofInt (x : Int) : Nat := (x % 18446744073709551616).toNat

/-- Go reinterpretation of a `uint64` bit pattern as `int64`. -/
def int64ofUInt64 (n : Nat) : Int :=
  if n % 18446744073709551616 < 9223372036854775808
  then ((n % 18446744073709551616 : Nat) : Int)
  else ((n % 18446744073709551616 : Nat) : Int) - 18446744073709551616

/-- Go reinterpretation of a `uint32` bit pattern as `int32`. -/
def int32ofUInt32 (n : Nat) : Int :=
  if n % 4294967296 < 2147483648
  then ((n % 4294967296 : Nat) : Int)
  else ((n % 4294967296 : Nat) : Int) - 4294967296

/-- Wrap-around of Go `int32` arithmetic: reduce an exact integer to the
representative in `[-2^31, 2^31)`. -/
def wrap32 (x : Int) : Int := (x + 2147483648) % 4294967296 - 2147483648

/-- Wrap-around of Go `int64` arithmetic: reduce an exact integer to the
representative in `[-2^63, 2^63)`. -/
def wrap64 (x : Int) : Int :=
  (x + 9223372036854775808) % 18446744073709551616 - 9223372036854775808

/-! ## Register map constants (src/bme680.go) -/

def BME680_ID_REG : Nat := 0x00
def BME680_STATUS_REG : Nat := 0x03
def BME680_ODR_REG : Nat := 0x1D
def BME680_OSR_REG : Nat := 0x74
def BME680_PWR_CTRL_REG : Nat := 0x1B
def BME680_CONFIG : Nat := 0x75
def BME680_CMD_REG : Nat := 0x7E
def BME680_COEF_START : Nat := 0x31
def BME680_COEF_BYTES : Nat := 21
def BME680_PRES_OUT_MSB_LSB_XLSB : Nat := 0x04
def BME680_TEMP_OUT_MSB_LSB_XLSB : Nat := 0x22
def BME680_PWR_MODE_SLEEP : Nat := 0
def BME680_PWR_MODE_FORCED : Nat := 1
def BME680_PWR_MODE_NORMAL : Nat := 3
def BME680_coef_0 : Nat := 0

/-! ## Calibration coefficients (struct CoeffBME680, src/bme680.go) -/

/-- Raw calibration bytes of the BME680/BMP388 variant, one `Nat` per `uint8`
register field, in the order they appear in the Go struct. -/
structure CoeffBME680 where
  COEF_31 : Nat
  COEF_32 : Nat
  COEF_33 : Nat
  COEF_34 : Nat
  COEF_35 : Nat
  COEF_36 : Nat
  COEF_37 : Nat
  COEF_38 : Nat
  COEF_39 : Nat
  COEF_3A : Nat
  COEF_3B : Nat
  COEF_3C : Nat
  COEF_3D : Nat
  COEF_3E : Nat
  COEF_3F : Nat
  COEF_40 : Nat
  COEF_41 : Nat
  COEF_42 : Nat
  COEF_43 : Nat
  COEF_44 : Nat
  COEF_45 : Nat
deriving DecidableEq

/-- `PAR_T1`: `uint16(COEF_32)<<8 | uint16(COEF_31)`. -/
def CoeffBME680.PAR_T1 (v : CoeffBME680) : Nat := byteVal v.COEF_32 * 256 + byteVal v.COEF_31

/-- `PAR_T2`: `uint16(COEF_34)<<8 | uint16(COEF_33)`. -/
def CoeffBME680.PAR_T2 (v : CoeffBME680) : Nat := byteVal v.COEF_34 * 256 + byteVal v.COEF_33

/-- `PAR_T3`: `int8(COEF_35)`. -/
def CoeffBME680.PAR_T3 (v : CoeffBME680) : Int := int8val v.COEF_35

/-- `PAR_P1`: `int16(uint16(COEF_37)<<8 | uint16(COEF_36))`. -/
def CoeffBME680.PAR_P1 (v : CoeffBME680) : Int :=
  int16val (byteVal v.COEF_37 * 256 + byteVal v.COEF_36)

/-- `PAR_P2`: `int16(uint16(COEF_39)<<8 | uint16(COEF_38))`. -/
def CoeffBME680.PAR_P2 (v : CoeffBME680) : Int :=
  int16val (byteVal v.COEF_39 * 256 + byteVal v.COEF_38)

/-- `PAR_P3`: `int8(uint16(COEF_3A))`. -/
def CoeffBME680.PAR_P3 (v : CoeffBME680) : Int := int8val v.COEF_3A

/-- `PAR_P4`: `int8(uint16(COEF_3B))`. -/
def CoeffBME680.PAR_P4 (v : CoeffBME680) : Int := int8val v.COEF_3B

/-- `PAR_P5`: `uint16(uint16(COEF_3D)<<8 | uint16(COEF_3C))`. -/
def CoeffBME680.PAR_P5 (v : CoeffBME680) : Nat := byteVal v.COEF_3D * 256 + byteVal v.COEF_3C

/-- `PAR_P6`: `uint16(uint16(COEF_3F)<<8 | uint16(COEF_3E))`. -/
def CoeffBME680.PAR_P6 (v : CoeffBME680) : Nat := byteVal v.COEF_3F * 256 + byteVal v.COEF_3E

/-- `PAR_P7`: `int8(uint16(COEF_40))`. -/
def CoeffBME680.PAR_P7 (v : CoeffBME680) : Int := int8val v.COEF_40

/-- `PAR_P8`: `int8(uint16(COEF_41))`. -/
def CoeffBME680.PAR_P8 (v : CoeffBME680) : Int := int8val v.COEF_41

/-- `PAR_P9`: `int16(uint16(COEF_43)<<8 | uint16(COEF_42))`. -/
def CoeffBME680.PAR_P9 (v : CoeffBME680) : Int :=
  int16val (byteVal v.COEF_43 * 256 + byteVal v.COEF_42)

/-- `PAR_P10`: `int8(uint16(COEF_44))`. -/
def CoeffBME680.PAR_P10 (v : CoeffBME680) : Int := int8val v.COEF_44

/-- `PAR_P11`: `int8(uint16(COEF_45))`. -/
def CoeffBME680.PAR_P11 (v : CoeffBME680) : Int := int8val v.COEF_45

/-! ## Temperature compensation (ReadTemperatureMult100C, src/bme680.go 445-451) -/

/-- Compensated temperature in centi-Celsius, transcribed from the arithmetic
of `ReadTemperatureMult100C` (src/bme680.go lines 445-451).  `ut` is the raw
temperature sample held in a Go `int32`.  Note the divisor `4294967269`
appears literally in the source. -/
def ReadTemperatureMult100C_t (c : CoeffBME680) (ut : Int) : Int :=
  let partial_data1 : Nat := uint64ofInt (wrap32 (ut - wrap32 (256 * (c.PAR_T1 : Int))))
  let partial_data2 : Nat := (c.PAR_T2 * partial_data1) % 18446744073709551616
  let partial_data3 : Nat := (partial_data1 * partial_data1) % 18446744073709551616
  let partial_data4 : Int := wrap64 (int64ofUInt64 partial_data3 * c.PAR_T3)
  let partial_data5 : Int :=
    wrap64 (int64ofUInt64 ((partial_data2 * 262144) % 18446744073709551616) + partial_data4)
  let partial_data6 : Int := Int.tdiv partial_data5 4294967269
  wrap32 (Int.tdiv (wrap64 (partial_data6 * 25)) 16384)

/-- Intermediate `partial_data6` of `ReadTemperatureMult100C` (src/bme680.go
lines 445-450): the linearized temperature value before the final `*25/16384`
scaling. -/
def ReadTemperatureMult100C_partial_data6 (c : CoeffBME680) (ut : Int) : Int :=
  let partial_data1 : Nat := uint64ofInt (wrap32 (ut - wrap32 (256 * (c.PAR_T1 : Int))))
  let partial_data2 : Nat := (c.PAR_T2 * partial_data1) % 18446744073709551616
  let partial_data3 : Nat := (partial_data1 * partial_data1) % 18446744073709551616
  let partial_data4 : Int := wrap64 (int64ofUInt64 partial_data3 * c.PAR_T3)
  let partial_data5 : Int :=
    wrap64 (int64ofUInt64 ((partial_data2 * 262144) % 18446744073709551616) + partial_data4)
  Int.tdiv partial_data5 4294967269

/-- Intermediate `t_lin` of `ReadPressureMult10Pa` (src/bme680.go lines
479-485): the pressure path recomputes the temperature linearization from the
raw temperature sample and the coefficients before compensating pressure. -/
def ReadPressureMult10Pa_t_lin (c : CoeffBME680) (ut : Int) : Int :=
  let partial_data1_t : Nat := uint64ofInt (wrap32 (ut - wrap32 (256 * (c.PAR_T1 : Int))))
  let partial_data2_t : Nat := (c.PAR_T2 * partial_data1_t) % 18446744073709551616
  let partial_data3_t : Nat := (partial_data1_t * partial_data1_t) % 18446744073709551616
  let partial_data4_t : Int := wrap64 (int64ofUInt64 partial_data3_t * c.PAR_T3)
  let partial_data5_t : Int :=
    wrap64 (int64ofUInt64 ((partial_data2_t * 262144) % 18446744073709551616) + partial_data4_t)
  Int.tdiv partial_data5_t 4294967269

/-- Modelled from the spec: the datasheet reference fixed-point temperature
sequence that the claim states the code implements — identical to
`ReadTemperatureMult100C_t` except that the linearization step divides by
`2^32 = 4294967296` (the BMP3 reference divisor) instead of the source's
literal `4294967269`. -/
def datasheetReferenceTemperature_t (c : CoeffBME680) (ut : Int) : Int :=
  let partial_data1 : Nat := uint64ofInt (wrap32 (ut - wrap32 (256 * (c.PAR_T1 : Int))))
  let partial_data2 : Nat := (c.PAR_T2 * partial_data1) % 18446744073709551616
  let partial_data3 : Nat := (partial_data1 * partial_data1) % 18446744073709551616
  let partial_data4 : Int := wrap64 (int64ofUInt64 partial_data3 * c.PAR_T3)
  let partial_data5 : Int :=
    wrap64 (int64ofUInt64 ((partial_data2 * 262144) % 18446744073709551616) + partial_data4)
  let partial_data6 : Int := Int.tdiv partial_data5 4294967296
  wrap32 (Int.tdiv (wrap64 (partial_data6 * 25)) 16384)

/-- Calibration fixture exhibiting the divisor transposition:
`PAR_T1 = 20000`, `PAR_T2 = 44966`, `PAR_T3 = 7` (remaining bytes zero). -/
def divisorBugCoeff : CoeffBME680 :=
  ⟨32, 78, 166, 175, 7, 0, 0, 0, 0, 0, 0, 0, 0, 0, 0, 0, 0, 0, 0, 0, 0⟩

/-- C1: the code's temperature compensation does not implement the stated
datasheet reference sequence: the linearization step divides by the literal
`4294967269` instead of `2^32 = 4294967296` (a digit transposition), and on
the raw sample `ut = 15967588` with the fixture `PAR_T1 = 20000`,
`PAR_T2 = 44966`, `PAR_T3 = 7` the code returns 45720 centi-Celsius while the
reference sequence returns 45719, so the exact-integer match fails. -/
theorem readTemperature_divisor_transposition_bug :
    ReadTemperatureMult100C_t divisorBugCoeff 15967588 = 45720 ∧
    datasheetReferenceTemperature_t divisorBugCoeff 15967588 = 45719 ∧
    (45720 : Int) ≠ 45719 := by
  refine ⟨by decide, by decide, by decide⟩

/-- C2: for every raw temperature sample and every coefficient set, the
`t_lin` intermediate computed inside `ReadPressureMult10Pa` coincides with the
`partial_data6` intermediate of `ReadTemperatureMult100C`: the pressure path
re-runs the temperature linearization unchanged. -/
theorem pressure_path_reuses_temperature_linearization
    (c : CoeffBME680) (ut : Int) :
    ReadPressureMult10Pa_t_lin c ut = ReadTemperatureMult100C_partial_data6 c ut := rfl

/-! ## Bus transport and operation traces -/

/-- One bus operation issued by the driver, as seen by the register transport. -/
inductive BusOp
  | readReg (addr : Nat)
  | writeReg (addr val : Nat)
  | readBytes (addr n : Nat)
deriving DecidableEq

/-- Register transport port (the external collaborator): byte-level register
access, `none` standing for an I/O error.  A transport is a pure map, so a
given register always answers the same way within one modelled call. -/
structure I2CTransport where
  readRegU8 : Nat → Option Nat
  writeRegU8 : Nat → Nat → Option Unit
  readRegBytes : Nat → Nat → Option (List Nat)

/-- IsBusy (src/bme680.go lines 294-304): read the status register, mask with
`0x60` and report busy exactly when the masked value is zero
(`return b == 0`). -/
def SensorBME680_IsBusy (i2c : I2CTransport) : Option Bool :=
  match i2c.readRegU8 BME680_STATUS_REG with
  | none => none
  | some b => some (decide ((b &&& 0x60) = 0))

/-- getOversamplingRation (src/bme680.go lines 306-326): map an accuracy mode
(a Go `int`) to the oversampling code, defaulting to 0. -/
def getOversamplingRation (accuracy : Int) : Nat :=
  if accuracy = 0 then 0
  else if accuracy = 1 then 1
  else if accuracy = 2 then 2
  else if accuracy = 3 then 3
  else if accuracy = 4 then 4
  else if accuracy = 5 then 5
  else 0

/-- AccuracyMode constants (src/unnamed/part_000 lines 39-45), Go `iota`. -/
def ACCURACY_ULTRA_LOW : Int := 0
def ACCURACY_LOW : Int := 1
def ACCURACY_STANDARD : Int := 2
def ACCURACY_HIGH : Int := 3
def ACCURACY_ULTRA_HIGH : Int := 4

/-- Modelled from the spec: the constant `ACCURACY_HIGHEST` is declared in
repository code not under src/ (the current bsbmp.go); it continues the
`iota` sequence of the other accuracy modes, hence value 5. -/
def ACCURACY_HIGHEST : Int := 5

/-- readUncompTemprature (src/bme680.go lines 329-363): write the IIR-filter
config, write the oversampling register, then read the three raw temperature
bytes.  The trigger/busy-wait block of the source is commented out, which this
transcription preserves.  Returns the assembled raw sample (or `none` on I/O
error) together with the list of bus operations issued. -/
def readUncompTemprature (i2c : I2CTransport) (accuracy : Int) :
    Option Int × List BusOp :=
  let cfgVal : Nat := (BME680_coef_0 <<< 1) % 256
  match i2c.writeRegU8 BME680_CONFIG cfgVal with
  | none => (none, [BusOp.writeReg BME680_CONFIG cfgVal])
  | some _ =>
    let osrt := getOversamplingRation accuracy
    let osrVal : Nat := (osrt <<< 5) % 256
    match i2c.writeRegU8 BME680_OSR_REG osrVal with
    | none => (none, [BusOp.writeReg BME680_CONFIG cfgVal, BusOp.writeReg BME680_OSR_REG osrVal])
    | some _ =>
      match i2c.readRegBytes BME680_TEMP_OUT_MSB_LSB_XLSB 3 with
      | none => (none, [BusOp.writeReg BME680_CONFIG cfgVal,
                        BusOp.writeReg BME680_OSR_REG osrVal,
                        BusOp.readBytes BME680_TEMP_OUT_MSB_LSB_XLSB 3])
      | some buf =>
        let ut : Int := int32ofUInt32
          ((byteVal (buf.getD 0 0) + byteVal (buf.getD 1 0) * 256
            + byteVal (buf.getD 2 0) * 65536) % 4294967296)
        (some ut, [BusOp.writeReg BME680_CONFIG cfgVal,
                   BusOp.writeReg BME680_OSR_REG osrVal,
                   BusOp.readBytes BME680_TEMP_OUT_MSB_LSB_XLSB 3])

/-- Test for the bus operations the C5 claim requires before a raw read: a
write to the power-control register (the conversion trigger) or a read of the
status register (the busy poll). -/
def isTriggerOrPoll : BusOp → Bool
  | BusOp.writeReg addr _ => addr == BME680_PWR_CTRL_REG
  | BusOp.readReg addr => addr == BME680_STATUS_REG
  | BusOp.readBytes _ _ => false

/-- Transport whose writes all succeed, whose one-byte register reads answer
`st`, and whose block reads answer `bytes`. -/
def mkTransport (st : Nat) (bytes : List Nat) : I2CTransport :=
  { readRegU8 := fun _ => some st
    writeRegU8 := fun _ _ => some ()
    readRegBytes := fun _ _ => some bytes }

/-- C3 counterexample: on a status byte with every tracked bit of the mask
`0x60` clear (byte `0`), `IsBusy` reports busy (`true`), not the not-busy
(`false`) the claim asserts; the two tracked bits are in fact data-ready
(done) flags, so all-clear means a conversion is still in progress. -/
theorem isBusy_all_clear_reports_busy :
    (0 &&& 0x60 = 0) ∧
    SensorBME680_IsBusy (mkTransport 0 []) = some true ∧
    (some true : Option Bool) ≠ some false := by
  refine ⟨by decide, by decide, by decide⟩

set_option maxRecDepth 4000 in
/-- C3 amended: for every status byte, `IsBusy` reports busy (`true`) exactly
when both tracked bits of the mask `0x60` (pressure-ready `0x20` and
temperature-ready `0x40`) are clear, and not-busy (`false`) exactly when at
least one of the two tracked bits is set — the inverse polarity of the
claim. -/
theorem isBusy_mask_semantics :
    ∀ b : Nat, b < 256 →
      (SensorBME680_IsBusy (mkTransport b []) = some true ↔
        (b &&& 0x20 = 0 ∧ b &&& 0x40 = 0)) ∧
      (SensorBME680_IsBusy (mkTransport b []) = some false ↔
        (b &&& 0x20 ≠ 0 ∨ b &&& 0x40 ≠ 0)) := by
  decide

/-- Witness for `isBusy_mask_semantics` at the concrete status byte `0x20`
(pressure data ready): `IsBusy` reports not busy. -/
theorem isBusy_mask_semantics_witness :
    SensorBME680_IsBusy (mkTransport 32 []) = some false :=
  ((isBusy_mask_semantics 32 (by decide)).2).mpr (by decide)

/-- C5 counterexample: against a transport whose status byte is `0` (conversion
still in progress under the done-flag reading) and whose raw registers answer
`[1, 2, 3]`, `readUncompTemprature` returns a raw sample to the caller while
its bus trace contains no write to the power-control register (no conversion
trigger) and no read of the status register (no busy poll): the trigger/wait
block is commented out in the source. -/
theorem readUncompTemprature_no_trigger_counterexample :
    (readUncompTemprature (mkTransport 0 [1, 2, 3]) ACCURACY_STANDARD).1 = some 197121 ∧
    ((readUncompTemprature (mkTransport 0 [1, 2, 3]) ACCURACY_STANDARD).2.any
      isTriggerOrPoll) = false := by
  refine ⟨by decide, by decide⟩

/-- C5 amended: for every transport and accuracy mode, the bus trace of
`readUncompTemprature` never contains a power-control write or a status-register
read: it writes the IIR-filter config and the oversampling register and then
reads the three raw bytes directly, without triggering a conversion or
observing the busy flag. -/
theorem readUncompTemprature_never_triggers_or_polls
    (i2c : I2CTransport) (accuracy : Int) :
    ((readUncompTemprature i2c accuracy).2.any isTriggerOrPoll) = false := by
  cases h1 : i2c.writeRegU8 BME680_CONFIG ((BME680_coef_0 <<< 1) % 256) with
  | none =>
    simp only [readUncompTemprature, h1]
    decide
  | some u =>
    cases h2 : i2c.writeRegU8 BME680_OSR_REG ((getOversamplingRation accuracy <<< 5) % 256) with
    | none =>
      simp only [readUncompTemprature, h1, h2]
      simp [isTriggerOrPoll, BME680_CONFIG, BME680_OSR_REG, BME680_PWR_CTRL_REG]
    | some u2 =>
      cases h3 : i2c.readRegBytes BME680_TEMP_OUT_MSB_LSB_XLSB 3 with
      | none =>
        simp only [readUncompTemprature, h1, h2, h3]
        simp [isTriggerOrPoll, BME680_CONFIG, BME680_OSR_REG,
              BME680_TEMP_OUT_MSB_LSB_XLSB, BME680_PWR_CTRL_REG, BME680_STATUS_REG]
      | some buf =>
        simp only [readUncompTemprature, h1, h2, h3]
        simp [isTriggerOrPoll, BME680_CONFIG, BME680_OSR_REG,
              BME680_TEMP_OUT_MSB_LSB_XLSB, BME680_PWR_CTRL_REG, BME680_STATUS_REG]

/-! ## Error taxonomy and humidity accessor -/

/-- Failure kinds surfaced by the driver (spec section 7 taxonomy restricted to
the kinds the modelled routines can produce). -/
inductive DriverError
  | ioError
  | signatureMismatch (expected got : Nat)
deriving DecidableEq

/-- ReadHumidityMultQ2210 (src/bme680.go lines 543-546): humidity is not
applicable to this variant; the accessor ignores its arguments and returns
`(false, 0, nil)`. -/
def ReadHumidityMultQ2210 (i2c : I2CTransport) (accuracy : Int) :
    Bool × Nat × Option DriverError :=
  (false, 0, none)

/-- C9: for every transport and every accuracy mode, the humidity accessor of
the humidity-less variant returns the documented unsupported result
`(supported = false, value = 0, error = none)`: it never reports an I/O error
and never fabricates a numeric humidity value. -/
theorem humidity_unsupported (i2c : I2CTransport) (accuracy : Int) :
    ReadHumidityMultQ2210 i2c accuracy = (false, 0, none) := rfl

/-! ## Conversion trigger and busy-wait (pressure paths) -/

/-- Modelled from the spec: the poll budget of the shared busy-wait loop; the
spec (section 4.3) requires a bounded number of polls, `waitForCompletion`
living in repository code not under src/.  The concrete bound is irrelevant to
the claims settled here. -/
def pollBudget : Nat := 10

/-- Modelled from the spec: `waitForCompletion` (repository code not under
src/) polls the sensor's busy flag via `IsBusy` with a bounded retry budget,
propagating I/O errors (`none`), and otherwise reporting whether the budget
was exhausted (`some true` = timeout, ignored by the callers in
src/bme680.go, which only check the error). -/
def waitForCompletion (i2c : I2CTransport) : Nat → Option Bool
  | 0 => some true
  | Nat.succ n =>
    match SensorBME680_IsBusy i2c with
    | none => none
    | some true => waitForCompletion i2c n
    | some false => some false

/-- Bus operations issued by `waitForCompletion`: one status-register read per
poll iteration. -/
def waitForCompletion_ops (i2c : I2CTransport) : Nat → List BusOp
  | 0 => []
  | Nat.succ n =>
    match i2c.readRegU8 BME680_STATUS_REG with
    | none => [BusOp.readReg BME680_STATUS_REG]
    | some b =>
      if (b &&& 0x60) = 0
      then BusOp.readReg BME680_STATUS_REG :: waitForCompletion_ops i2c n
      else [BusOp.readReg BME680_STATUS_REG]

/-- Every operation the busy-wait loop issues is a status-register read. -/
theorem waitForCompletion_ops_status (i2c : I2CTransport) :
    ∀ n, ∀ op ∈ waitForCompletion_ops i2c n, op = BusOp.readReg BME680_STATUS_REG := by
  intro n
  induction n with
  | zero => intro op h; simp [waitForCompletion_ops] at h
  | succ n ih =>
    intro op h
    unfold waitForCompletion_ops at h
    cases hr : i2c.readRegU8 BME680_STATUS_REG with
    | none =>
      rw [hr] at h
      replace h : op ∈ [BusOp.readReg BME680_STATUS_REG] := h
      simpa using h
    | some b =>
      rw [hr] at h
      replace h : op ∈ (if (b &&& 0x60) = 0
          then BusOp.readReg BME680_STATUS_REG :: waitForCompletion_ops i2c n
          else [BusOp.readReg BME680_STATUS_REG]) := h
      by_cases hb : (b &&& 0x60) = 0
      · rw [if_pos hb] at h
        rcases List.mem_cons.mp h with h' | h'
        · exact h'
        · exact ih op h'
      · rw [if_neg hb] at h
        simpa using h

/-- readUncompPressure (src/bme680.go lines 366-391): write forced-mode power
control, busy-wait, write the pressure oversampling code, busy-wait again,
then read and assemble the three raw pressure bytes. -/
def readUncompPressure (i2c : I2CTransport) (accuracy : Int) :
    Option Int × List BusOp :=
  let power : Nat := ((BME680_PWR_MODE_FORCED <<< 4) ||| 3) % 256
  let ops1 : List BusOp := [BusOp.writeReg BME680_PWR_CTRL_REG power]
  match i2c.writeRegU8 BME680_PWR_CTRL_REG power with
  | none => (none, ops1)
  | some _ =>
    let ops2 := ops1 ++ waitForCompletion_ops i2c pollBudget
    match waitForCompletion i2c pollBudget with
    | none => (none, ops2)
    | some _ =>
      let osrp := getOversamplingRation accuracy
      let ops3 := ops2 ++ [BusOp.writeReg BME680_OSR_REG osrp]
      match i2c.writeRegU8 BME680_OSR_REG osrp with
      | none => (none, ops3)
      | some _ =>
        let ops4 := ops3 ++ waitForCompletion_ops i2c pollBudget
        match waitForCompletion i2c pollBudget with
        | none => (none, ops4)
        | some _ =>
          let ops5 := ops4 ++ [BusOp.readBytes BME680_PRES_OUT_MSB_LSB_XLSB 3]
          match i2c.readRegBytes BME680_PRES_OUT_MSB_LSB_XLSB 3 with
          | none => (none, ops5)
          | some buf =>
            let up : Int :=
              wrap32 (wrap32 ((byteVal (buf.getD 0 0) : Int)
                  + wrap32 ((byteVal (buf.getD 1 0) : Int) * 256))
                + wrap32 ((byteVal (buf.getD 2 0) : Int) * 65536))
            (some up, ops5)

/-- readUncompTempratureAndPressure (src/bme680.go lines 397-429): write
forced-mode power control, busy-wait, write the combined oversampling byte
`(osrt<<3)|osrp` where `osrt` is always the code for `ACCURACY_STANDARD`,
busy-wait again, then read and assemble the raw temperature and pressure
samples. -/
def readUncompTempratureAndPressure (i2c : I2CTransport) (accuracy : Int) :
    Option (Int × Int) × List BusOp :=
  let power : Nat := ((BME680_PWR_MODE_FORCED <<< 4) ||| 3) % 256
  let ops1 : List BusOp := [BusOp.writeReg BME680_PWR_CTRL_REG power]
  match i2c.writeRegU8 BME680_PWR_CTRL_REG power with
  | none => (none, ops1)
  | some _ =>
    let ops2 := ops1 ++ waitForCompletion_ops i2c pollBudget
    match waitForCompletion i2c pollBudget with
    | none => (none, ops2)
    | some _ =>
      let osrt := getOversamplingRation ACCURACY_STANDARD
      let osrp := getOversamplingRation accuracy
      let osrv : Nat := ((osrt <<< 3) ||| osrp) % 256
      let ops3 := ops2 ++ [BusOp.writeReg BME680_OSR_REG osrv]
      match i2c.writeRegU8 BME680_OSR_REG osrv with
      | none => (none, ops3)
      | some _ =>
        let ops4 := ops3 ++ waitForCompletion_ops i2c pollBudget
        match waitForCompletion i2c pollBudget with
        | none => (none, ops4)
        | some _ =>
          let ops5 := ops4 ++ [BusOp.readBytes BME680_TEMP_OUT_MSB_LSB_XLSB 3]
          match i2c.readRegBytes BME680_TEMP_OUT_MSB_LSB_XLSB 3 with
          | none => (none, ops5)
          | some buf =>
            let ut : Int :=
              wrap32 (wrap32 ((byteVal (buf.getD 0 0) : Int)
                  + wrap32 ((byteVal (buf.getD 1 0) : Int) * 256))
                + wrap32 ((byteVal (buf.getD 2 0) : Int) * 65536))
            let ops6 := ops5 ++ [BusOp.readBytes BME680_PRES_OUT_MSB_LSB_XLSB 3]
            match i2c.readRegBytes BME680_PRES_OUT_MSB_LSB_XLSB 3 with
            | none => (none, ops6)
            | some buf2 =>
              let up : Int :=
                wrap32 (wrap32 ((byteVal (buf2.getD 0 0) : Int)
                    + wrap32 ((byteVal (buf2.getD 1 0) : Int) * 256))
                  + wrap32 ((byteVal (buf2.getD 2 0) : Int) * 65536))
              (some (ut, up), ops6)

/-- Wrap-around is the identity on values already in the `int32` range. -/
theorem wrap32_eq_of_bounds (x : Int) (hlo : -2147483648 ≤ x) (hhi : x < 2147483648) :
    wrap32 x = x := by
  unfold wrap32; omega

/-- Reinterpreting a small `uint32` pattern as `int32` is the identity. -/
theorem int32ofUInt32_eq_of_lt (n : Nat) (h : n < 2147483648) :
    int32ofUInt32 n = n := by
  unfold int32ofUInt32
  rw [Nat.mod_eq_of_lt (by omega)]
  rw [if_pos h]

/-- C4 counterexample: with raw register bytes `[1, 0, 0]`, both raw-sample
reads assemble the value `1` (first byte least significant), not the
`1*65536 + 0*256 + 0 = 65536` the big-endian claim requires. -/
theorem raw_assembly_not_big_endian :
    (readUncompTemprature (mkTransport 96 [1, 0, 0]) ACCURACY_LOW).1 = some 1 ∧
    (readUncompPressure (mkTransport 96 [1, 0, 0]) ACCURACY_LOW).1 = some 1 ∧
    (1 : Int) ≠ 1 * 65536 + 0 * 256 + 0 := by
  refine ⟨by decide, by decide, by decide⟩

/-- C4 amended: for every 3-byte register buffer `[b0, b1, b2]`, the raw
sample is assembled little-endian with the first byte least significant:
`value = buf[0] + buf[1]*256 + buf[2]*65536`, in both `readUncompTemprature`
and `readUncompPressure`. -/
theorem raw_sample_assembly_little_endian (b0 b1 b2 : Nat) (accuracy : Int)
    (h0 : b0 < 256) (h1 : b1 < 256) (h2 : b2 < 256) :
    (readUncompTemprature (mkTransport 96 [b0, b1, b2]) accuracy).1
        = some ((b0 : Int) + (b1 : Int) * 256 + (b2 : Int) * 65536) ∧
    (readUncompPressure (mkTransport 96 [b0, b1, b2]) accuracy).1
        = some ((b0 : Int) + (b1 : Int) * 256 + (b2 : Int) * 65536) := by
  constructor
  · have e : (readUncompTemprature (mkTransport 96 [b0, b1, b2]) accuracy).1
        = some (int32ofUInt32
            ((byteVal b0 + byteVal b1 * 256 + byteVal b2 * 65536) % 4294967296)) := rfl
    rw [e]
    unfold byteVal
    rw [Nat.mod_eq_of_lt h0, Nat.mod_eq_of_lt h1, Nat.mod_eq_of_lt h2,
        Nat.mod_eq_of_lt (show b0 + b1 * 256 + b2 * 65536 < 4294967296 by omega),
        int32ofUInt32_eq_of_lt _ (by omega)]
    push_cast
    ring_nf
  · have e : (readUncompPressure (mkTransport 96 [b0, b1, b2]) accuracy).1
        = some (wrap32 (wrap32 ((byteVal b0 : Int) + wrap32 ((byteVal b1 : Int) * 256))
            + wrap32 ((byteVal b2 : Int) * 65536))) := rfl
    rw [e]
    unfold byteVal
    rw [Nat.mod_eq_of_lt h0, Nat.mod_eq_of_lt h1, Nat.mod_eq_of_lt h2,
        wrap32_eq_of_bounds ((b1 : Int) * 256) (by omega) (by omega),
        wrap32_eq_of_bounds ((b2 : Int) * 65536) (by omega) (by omega),
        wrap32_eq_of_bounds ((b0 : Int) + (b1 : Int) * 256) (by omega) (by omega),
        wrap32_eq_of_bounds ((b0 : Int) + (b1 : Int) * 256 + (b2 : Int) * 65536)
          (by omega) (by omega)]

/-- Witness for `raw_sample_assembly_little_endian` at bytes `[1, 2, 3]`. -/
theorem raw_sample_assembly_little_endian_witness :
    (readUncompTemprature (mkTransport 96 [1, 2, 3]) 1).1
        = some (((1 : Nat) : Int) + ((2 : Nat) : Int) * 256 + ((3 : Nat) : Int) * 65536) ∧
    (readUncompPressure (mkTransport 96 [1, 2, 3]) 1).1
        = some (((1 : Nat) : Int) + ((2 : Nat) : Int) * 256 + ((3 : Nat) : Int) * 65536) :=
  raw_sample_assembly_little_endian 1 2 3 1 (by decide) (by decide) (by decide)

/-- Oversampling codes are at most 5 and hence fit in the 3-bit register field. -/
theorem getOversamplingRation_le (m : Int) : getOversamplingRation m ≤ 5 := by
  unfold getOversamplingRation
  split_ifs <;> norm_num

/-- Decomposition of the combined oversampling byte `(osrt<<3)|osrp` written by
`readUncompTempratureAndPressure`: bits 3-5 hold the temperature code, which is
always the code for `ACCURACY_STANDARD`, and bits 0-2 hold the pressure code
for the requested mode. -/
theorem osr_byte_fields (m : Int) :
    (((((getOversamplingRation ACCURACY_STANDARD <<< 3) ||| getOversamplingRation m) % 256) >>> 3)
        &&& 7) = getOversamplingRation ACCURACY_STANDARD ∧
    ((((getOversamplingRation ACCURACY_STANDARD <<< 3) ||| getOversamplingRation m) % 256) &&& 7)
        = getOversamplingRation m := by
  have hs : getOversamplingRation ACCURACY_STANDARD = 2 := by decide
  rw [hs]
  have hb : getOversamplingRation m ≤ 5 := getOversamplingRation_le m
  generalize getOversamplingRation m = b at hb ⊢
  interval_cases b <;> exact ⟨by decide, by decide⟩

/-- Shape of the bus trace of `readUncompTempratureAndPressure`: every issued
operation is the forced-mode power-control write, a status poll, the combined
oversampling write, or one of the two raw-sample block reads. -/
theorem readUncompTempratureAndPressure_trace_shape (i2c : I2CTransport) (m : Int) :
    ∀ op ∈ (readUncompTempratureAndPressure i2c m).2,
      op = BusOp.writeReg BME680_PWR_CTRL_REG (((BME680_PWR_MODE_FORCED <<< 4) ||| 3) % 256)
      ∨ op = BusOp.readReg BME680_STATUS_REG
      ∨ op = BusOp.writeReg BME680_OSR_REG
            (((getOversamplingRation ACCURACY_STANDARD <<< 3) ||| getOversamplingRation m) % 256)
      ∨ op = BusOp.readBytes BME680_TEMP_OUT_MSB_LSB_XLSB 3
      ∨ op = BusOp.readBytes BME680_PRES_OUT_MSB_LSB_XLSB 3 := by
  intro op hop
  have hw : op ∈ waitForCompletion_ops i2c pollBudget → op = BusOp.readReg BME680_STATUS_REG :=
    waitForCompletion_ops_status i2c pollBudget op
  cases h1 : i2c.writeRegU8 BME680_PWR_CTRL_REG (((BME680_PWR_MODE_FORCED <<< 4) ||| 3) % 256) with
  | none =>
    simp only [readUncompTempratureAndPressure, h1] at hop
    simp at hop
    tauto
  | some u1 =>
    cases h2 : waitForCompletion i2c pollBudget with
    | none =>
      simp only [readUncompTempratureAndPressure, h1, h2] at hop
      simp [List.mem_append] at hop
      tauto
    | some w =>
      cases h3 : i2c.writeRegU8 BME680_OSR_REG
          (((getOversamplingRation ACCURACY_STANDARD <<< 3) ||| getOversamplingRation m) % 256) with
      | none =>
        simp only [readUncompTempratureAndPressure, h1, h2, h3] at hop
        simp [List.mem_append] at hop
        tauto
      | some u2 =>
        cases h5 : i2c.readRegBytes BME680_TEMP_OUT_MSB_LSB_XLSB 3 with
        | none =>
          simp only [readUncompTempratureAndPressure, h1, h2, h3, h5] at hop
          simp [List.mem_append] at hop
          tauto
        | some buf =>
          cases h6 : i2c.readRegBytes BME680_PRES_OUT_MSB_LSB_XLSB 3 with
          | none =>
            simp only [readUncompTempratureAndPressure, h1, h2, h3, h5, h6] at hop
            simp [List.mem_append] at hop
            tauto
          | some buf2 =>
            simp only [readUncompTempratureAndPressure, h1, h2, h3, h5, h6] at hop
            simp [List.mem_append] at hop
            tauto

/-- C10: every write to the oversampling register issued by the combined
temperature-and-pressure read (the path every pressure accessor call uses)
carries a byte whose temperature field (bits 3-5) is the fixed code for
`ACCURACY_STANDARD` — independent of the requested mode — and whose pressure
field (bits 0-2) is the code for the requested mode. -/
theorem combined_read_fixes_temperature_oversampling
    (i2c : I2CTransport) (m : Int) (v : Nat)
    (hmem : BusOp.writeReg BME680_OSR_REG v ∈ (readUncompTempratureAndPressure i2c m).2) :
    (((v >>> 3) &&& 7) = getOversamplingRation ACCURACY_STANDARD) ∧
    ((v &&& 7) = getOversamplingRation m) := by
  rcases readUncompTempratureAndPressure_trace_shape i2c m _ hmem with h | h | h | h | h
  · exfalso
    have : BME680_OSR_REG = BME680_PWR_CTRL_REG := by injection h
    exact absurd this (by decide)
  · exact absurd h (by simp)
  · have hv : v = ((getOversamplingRation ACCURACY_STANDARD <<< 3) ||| getOversamplingRation m) % 256 := by
      injection h
    rw [hv]
    exact osr_byte_fields m
  · exact absurd h (by simp)
  · exact absurd h (by simp)

/-- Witness for `combined_read_fixes_temperature_oversampling`: against a
transport that always succeeds, requesting mode `ACCURACY_ULTRA_HIGH` writes
the oversampling byte `(2<<3)|4 = 20`, whose fields decompose as required. -/
theorem combined_read_fixes_temperature_oversampling_witness :
    ((((20 : Nat) >>> 3) &&& 7) = getOversamplingRation ACCURACY_STANDARD) ∧
    (((20 : Nat) &&& 7) = getOversamplingRation ACCURACY_ULTRA_HIGH) :=
  combined_read_fixes_temperature_oversampling
    (mkTransport 96 [1, 2, 3]) ACCURACY_ULTRA_HIGH 20 (by decide)

/-! ## Coefficient validation (IsValidCoefficients, src/bme680.go 196-274) -/

/-- Documented empty/erased sentinel values of a 16-bit calibration field. -/
def isSentinel (x : Nat) : Prop := x = 0 ∨ x = 65535

instance (x : Nat) : Decidable (isSentinel x) := by
  unfold isSentinel; infer_instance

/-- Modelled from the spec: `checkCoefficient` is defined in repository code
not under src/; per the spec (section 4.1), a coefficient fails validation
exactly when it equals a documented empty/erased sentinel value (`0x0000` or
`0xFFFF`), and the resulting error names the offending field. -/
def checkCoefficient (coef : Nat) (name : String) : Option String :=
  if coef = 0 ∨ coef = 65535 then some name else none

/-- IsValidCoefficients (src/bme680.go lines 196-274): sequentially check the
coefficients `PAR_T1..PAR_T3, PAR_P1..PAR_P3, PAR_P5..PAR_P11` (the `PAR_P4`
check is commented out in the source), each widened to `uint16` as in the
source, returning the first failure; a `nil` coefficient struct is itself an
error.  `some s` models returning the error message `s`, `none` models
returning `nil`. -/
def IsValidCoefficients (c : Option CoeffBME680) : Option String :=
  match c with
  | none => some "CoeffBME680 struct does not build"
  | some v =>
    (checkCoefficient v.PAR_T1 "PAR_T1").orElse fun _ =>
    (checkCoefficient v.PAR_T2 "PAR_T2").orElse fun _ =>
    (checkCoefficient (uint16ofInt v.PAR_T3) "PAR_T3").orElse fun _ =>
    (checkCoefficient (uint16ofInt v.PAR_P1) "PAR_P1").orElse fun _ =>
    (checkCoefficient (uint16ofInt v.PAR_P2) "PAR_P2").orElse fun _ =>
    (checkCoefficient (uint16ofInt v.PAR_P3) "PAR_P3").orElse fun _ =>
    (checkCoefficient v.PAR_P5 "PAR_P5").orElse fun _ =>
    (checkCoefficient v.PAR_P6 "PAR_P6").orElse fun _ =>
    (checkCoefficient (uint16ofInt v.PAR_P7) "PAR_P7").orElse fun _ =>
    (checkCoefficient (uint16ofInt v.PAR_P8) "PAR_P8").orElse fun _ =>
    (checkCoefficient (uint16ofInt v.PAR_P9) "PAR_P9").orElse fun _ =>
    (checkCoefficient (uint16ofInt v.PAR_P10) "PAR_P10").orElse fun _ =>
    (checkCoefficient (uint16ofInt v.PAR_P11) "PAR_P11").orElse fun _ =>
    none

/-- Value of the i-th coefficient checked by `IsValidCoefficients`, in check
order, widened to `uint16` as in the source. -/
def checkedFieldValue (v : CoeffBME680) (i : Fin 13) : Nat :=
  [v.PAR_T1, v.PAR_T2, uint16ofInt v.PAR_T3, uint16ofInt v.PAR_P1,
   uint16ofInt v.PAR_P2, uint16ofInt v.PAR_P3, v.PAR_P5, v.PAR_P6,
   uint16ofInt v.PAR_P7, uint16ofInt v.PAR_P8, uint16ofInt v.PAR_P9,
   uint16ofInt v.PAR_P10, uint16ofInt v.PAR_P11].getD i.val 0

/-- Name of the i-th coefficient checked by `IsValidCoefficients`. -/
def checkedFieldName (i : Fin 13) : String :=
  ["PAR_T1", "PAR_T2", "PAR_T3", "PAR_P1", "PAR_P2", "PAR_P3", "PAR_P5",
   "PAR_P6", "PAR_P7", "PAR_P8", "PAR_P9", "PAR_P10", "PAR_P11"].getD i.val ""

/-- Validation of a non-sentinel coefficient succeeds. -/
theorem checkCoefficient_none (x : Nat) (n : String) (h : ¬ isSentinel x) :
    checkCoefficient x n = none := by
  unfold checkCoefficient
  unfold isSentinel at h
  rw [if_neg h]

/-- Validation of a sentinel coefficient fails naming the field. -/
theorem checkCoefficient_some (x : Nat) (n : String) (h : isSentinel x) :
    checkCoefficient x n = some n := by
  unfold checkCoefficient
  unfold isSentinel at h
  rw [if_pos h]

/-- C6: for every loaded coefficient set, if none of the thirteen checked
coefficients (each widened to `uint16`) equals a sentinel value then
`IsValidCoefficients` succeeds, and if exactly one checked coefficient equals
a sentinel value then `IsValidCoefficients` fails with an error naming that
field. -/
theorem isValidCoefficients_sentinel_spec (v : CoeffBME680) :
    ((∀ i : Fin 13, ¬ isSentinel (checkedFieldValue v i)) →
        IsValidCoefficients (some v) = none) ∧
    (∀ i : Fin 13, isSentinel (checkedFieldValue v i) →
        (∀ j : Fin 13, j ≠ i → ¬ isSentinel (checkedFieldValue v j)) →
        IsValidCoefficients (some v) = some (checkedFieldName i)) := by
  constructor
  · intro hall
    have e0 : checkCoefficient v.PAR_T1 "PAR_T1" = none :=
      checkCoefficient_none _ _ (hall ⟨0, by omega⟩)
    have e1 : checkCoefficient v.PAR_T2 "PAR_T2" = none :=
      checkCoefficient_none _ _ (hall ⟨1, by omega⟩)
    have e2 : checkCoefficient (uint16ofInt v.PAR_T3) "PAR_T3" = none :=
      checkCoefficient_none _ _ (hall ⟨2, by omega⟩)
    have e3 : checkCoefficient (uint16ofInt v.PAR_P1) "PAR_P1" = none :=
      checkCoefficient_none _ _ (hall ⟨3, by omega⟩)
    have e4 : checkCoefficient (uint16ofInt v.PAR_P2) "PAR_P2" = none :=
      checkCoefficient_none _ _ (hall ⟨4, by omega⟩)
    have e5 : checkCoefficient (uint16ofInt v.PAR_P3) "PAR_P3" = none :=
      checkCoefficient_none _ _ (hall ⟨5, by omega⟩)
    have e6 : checkCoefficient v.PAR_P5 "PAR_P5" = none :=
      checkCoefficient_none _ _ (hall ⟨6, by omega⟩)
    have e7 : checkCoefficient v.PAR_P6 "PAR_P6" = none :=
      checkCoefficient_none _ _ (hall ⟨7, by omega⟩)
    have e8 : checkCoefficient (uint16ofInt v.PAR_P7) "PAR_P7" = none :=
      checkCoefficient_none _ _ (hall ⟨8, by omega⟩)
    have e9 : checkCoefficient (uint16ofInt v.PAR_P8) "PAR_P8" = none :=
      checkCoefficient_none _ _ (hall ⟨9, by omega⟩)
    have e10 : checkCoefficient (uint16ofInt v.PAR_P9) "PAR_P9" = none :=
      checkCoefficient_none _ _ (hall ⟨10, by omega⟩)
    have e11 : checkCoefficient (uint16ofInt v.PAR_P10) "PAR_P10" = none :=
      checkCoefficient_none _ _ (hall ⟨11, by omega⟩)
    have e12 : checkCoefficient (uint16ofInt v.PAR_P11) "PAR_P11" = none :=
      checkCoefficient_none _ _ (hall ⟨12, by omega⟩)
    simp [IsValidCoefficients, Option.orElse, e0, e1, e2, e3, e4, e5, e6, e7, e8, e9, e10, e11, e12]
  · intro i hi hothers
    fin_cases i
    · have s0 : checkCoefficient v.PAR_T1 "PAR_T1" = some "PAR_T1" :=
        checkCoefficient_some _ _ hi
      simp [IsValidCoefficients, Option.orElse, checkedFieldName, s0]
    · have s1 : checkCoefficient v.PAR_T2 "PAR_T2" = some "PAR_T2" :=
        checkCoefficient_some _ _ hi
      have e0 : checkCoefficient v.PAR_T1 "PAR_T1" = none :=
        checkCoefficient_none _ _ (hothers ⟨0, by omega⟩ (by decide))
      simp [IsValidCoefficients, Option.orElse, checkedFieldName, s1, e0]
    · have s2 : checkCoefficient (uint16ofInt v.PAR_T3) "PAR_T3" = some "PAR_T3" :=
        checkCoefficient_some _ _ hi
      have e0 : checkCoefficient v.PAR_T1 "PAR_T1" = none :=
        checkCoefficient_none _ _ (hothers ⟨0, by omega⟩ (by decide))
      have e1 : checkCoefficient v.PAR_T2 "PAR_T2" = none :=
        checkCoefficient_none _ _ (hothers ⟨1, by omega⟩ (by decide))
      simp [IsValidCoefficients, Option.orElse, checkedFieldName, s2, e0, e1]
    · have s3 : checkCoefficient (uint16ofInt v.PAR_P1) "PAR_P1" = some "PAR_P1" :=
        checkCoefficient_some _ _ hi
      have e0 : checkCoefficient v.PAR_T1 "PAR_T1" = none :=
        checkCoefficient_none _ _ (hothers ⟨0, by omega⟩ (by decide))
      have e1 : checkCoefficient v.PAR_T2 "PAR_T2" = none :=
        checkCoefficient_none _ _ (hothers ⟨1, by omega⟩ (by decide))
      have e2 : checkCoefficient (uint16ofInt v.PAR_T3) "PAR_T3" = none :=
        checkCoefficient_none _ _ (hothers ⟨2, by omega⟩ (by decide))
      simp [IsValidCoefficients, Option.orElse, checkedFieldName, s3, e0, e1, e2]
    · have s4 : checkCoefficient (uint16ofInt v.PAR_P2) "PAR_P2" = some "PAR_P2" :=
        checkCoefficient_some _ _ hi
      have e0 : checkCoefficient v.PAR_T1 "PAR_T1" = none :=
        checkCoefficient_none _ _ (hothers ⟨0, by omega⟩ (by decide))
      have e1 : checkCoefficient v.PAR_T2 "PAR_T2" = none :=
        checkCoefficient_none _ _ (hothers ⟨1, by omega⟩ (by decide))
      have e2 : checkCoefficient (uint16ofInt v.PAR_T3) "PAR_T3" = none :=
        checkCoefficient_none _ _ (hothers ⟨2, by omega⟩ (by decide))
      have e3 : checkCoefficient (uint16ofInt v.PAR_P1) "PAR_P1" = none :=
        checkCoefficient_none _ _ (hothers ⟨3, by omega⟩ (by decide))
      simp [IsValidCoefficients, Option.orElse, checkedFieldName, s4, e0, e1, e2, e3]
    · have s5 : checkCoefficient (uint16ofInt v.PAR_P3) "PAR_P3" = some "PAR_P3" :=
        checkCoefficient_some _ _ hi
      have e0 : checkCoefficient v.PAR_T1 "PAR_T1" = none :=
        checkCoefficient_none _ _ (hothers ⟨0, by omega⟩ (by decide))
      have e1 : checkCoefficient v.PAR_T2 "PAR_T2" = none :=
        checkCoefficient_none _ _ (hothers ⟨1, by omega⟩ (by decide))
      have e2 : checkCoefficient (uint16ofInt v.PAR_T3) "PAR_T3" = none :=
        checkCoefficient_none _ _ (hothers ⟨2, by omega⟩ (by decide))
      have e3 : checkCoefficient (uint16ofInt v.PAR_P1) "PAR_P1" = none :=
        checkCoefficient_none _ _ (hothers ⟨3, by omega⟩ (by decide))
      have e4 : checkCoefficient (uint16ofInt v.PAR_P2) "PAR_P2" = none :=
        checkCoefficient_none _ _ (hothers ⟨4, by omega⟩ (by decide))
      simp [IsValidCoefficients, Option.orElse, checkedFieldName, s5, e0, e1, e2, e3, e4]
    · have s6 : checkCoefficient v.PAR_P5 "PAR_P5" = some "PAR_P5" :=
        checkCoefficient_some _ _ hi
      have e0 : checkCoefficient v.PAR_T1 "PAR_T1" = none :=
        checkCoefficient_none _ _ (hothers ⟨0, by omega⟩ (by decide))
      have e1 : checkCoefficient v.PAR_T2 "PAR_T2" = none :=
        checkCoefficient_none _ _ (hothers ⟨1, by omega⟩ (by decide))
      have e2 : checkCoefficient (uint16ofInt v.PAR_T3) "PAR_T3" = none :=
        checkCoefficient_none _ _ (hothers ⟨2, by omega⟩ (by decide))
      have e3 : checkCoefficient (uint16ofInt v.PAR_P1) "PAR_P1" = none :=
        checkCoefficient_none _ _ (hothers ⟨3, by omega⟩ (by decide))
      have e4 : checkCoefficient (uint16ofInt v.PAR_P2) "PAR_P2" = none :=
        checkCoefficient_none _ _ (hothers ⟨4, by omega⟩ (by decide))
      have e5 : checkCoefficient (uint16ofInt v.PAR_P3) "PAR_P3" = none :=
        checkCoefficient_none _ _ (hothers ⟨5, by omega⟩ (by decide))
      simp [IsValidCoefficients, Option.orElse, checkedFieldName, s6, e0, e1, e2, e3, e4, e5]
    · have s7 : checkCoefficient v.PAR_P6 "PAR_P6" = some "PAR_P6" :=
        checkCoefficient_some _ _ hi
      have e0 : checkCoefficient v.PAR_T1 "PAR_T1" = none :=
        checkCoefficient_none _ _ (hothers ⟨0, by omega⟩ (by decide))
      have e1 : checkCoefficient v.PAR_T2 "PAR_T2" = none :=
        checkCoefficient_none _ _ (hothers ⟨1, by omega⟩ (by decide))
      have e2 : checkCoefficient (uint16ofInt v.PAR_T3) "PAR_T3" = none :=
        checkCoefficient_none _ _ (hothers ⟨2, by omega⟩ (by decide))
      have e3 : checkCoefficient (uint16ofInt v.PAR_P1) "PAR_P1" = none :=
        checkCoefficient_none _ _ (hothers ⟨3, by omega⟩ (by decide))
      have e4 : checkCoefficient (uint16ofInt v.PAR_P2) "PAR_P2" = none :=
        checkCoefficient_none _ _ (hothers ⟨4, by omega⟩ (by decide))
      have e5 : checkCoefficient (uint16ofInt v.PAR_P3) "PAR_P3" = none :=
        checkCoefficient_none _ _ (hothers ⟨5, by omega⟩ (by decide))
      have e6 : checkCoefficient v.PAR_P5 "PAR_P5" = none :=
        checkCoefficient_none _ _ (hothers ⟨6, by omega⟩ (by decide))
      simp [IsValidCoefficients, Option.orElse, checkedFieldName, s7, e0, e1, e2, e3, e4, e5, e6]
    · have s8 : checkCoefficient (uint16ofInt v.PAR_P7) "PAR_P7" = some "PAR_P7" :=
        checkCoefficient_some _ _ hi
      have e0 : checkCoefficient v.PAR_T1 "PAR_T1" = none :=
        checkCoefficient_none _ _ (hothers ⟨0, by omega⟩ (by decide))
      have e1 : checkCoefficient v.PAR_T2 "PAR_T2" = none :=
        checkCoefficient_none _ _ (hothers ⟨1, by omega⟩ (by decide))
      have e2 : checkCoefficient (uint16ofInt v.PAR_T3) "PAR_T3" = none :=
        checkCoefficient_none _ _ (hothers ⟨2, by omega⟩ (by decide))
      have e3 : checkCoefficient (uint16ofInt v.PAR_P1) "PAR_P1" = none :=
        checkCoefficient_none _ _ (hothers ⟨3, by omega⟩ (by decide))
      have e4 : checkCoefficient (uint16ofInt v.PAR_P2) "PAR_P2" = none :=
        checkCoefficient_none _ _ (hothers ⟨4, by omega⟩ (by decide))
      have e5 : checkCoefficient (uint16ofInt v.PAR_P3) "PAR_P3" = none :=
        checkCoefficient_none _ _ (hothers ⟨5, by omega⟩ (by decide))
      have e6 : checkCoefficient v.PAR_P5 "PAR_P5" = none :=
        checkCoefficient_none _ _ (hothers ⟨6, by omega⟩ (by decide))
      have e7 : checkCoefficient v.PAR_P6 "PAR_P6" = none :=
        checkCoefficient_none _ _ (hothers ⟨7, by omega⟩ (by decide))
      simp [IsValidCoefficients, Option.orElse, checkedFieldName, s8, e0, e1, e2, e3, e4, e5, e6, e7]
    · have s9 : checkCoefficient (uint16ofInt v.PAR_P8) "PAR_P8" = some "PAR_P8" :=
        checkCoefficient_some _ _ hi
      have e0 : checkCoefficient v.PAR_T1 "PAR_T1" = none :=
        checkCoefficient_none _ _ (hothers ⟨0, by omega⟩ (by decide))
      have e1 : checkCoefficient v.PAR_T2 "PAR_T2" = none :=
        checkCoefficient_none _ _ (hothers ⟨1, by omega⟩ (by decide))
      have e2 : checkCoefficient (uint16ofInt v.PAR_T3) "PAR_T3" = none :=
        checkCoefficient_none _ _ (hothers ⟨2, by omega⟩ (by decide))
      have e3 : checkCoefficient (uint16ofInt v.PAR_P1) "PAR_P1" = none :=
        checkCoefficient_none _ _ (hothers ⟨3, by omega⟩ (by decide))
      have e4 : checkCoefficient (uint16ofInt v.PAR_P2) "PAR_P2" = none :=
        checkCoefficient_none _ _ (hothers ⟨4, by omega⟩ (by decide))
      have e5 : checkCoefficient (uint16ofInt v.PAR_P3) "PAR_P3" = none :=
        checkCoefficient_none _ _ (hothers ⟨5, by omega⟩ (by decide))
      have e6 : checkCoefficient v.PAR_P5 "PAR_P5" = none :=
        checkCoefficient_none _ _ (hothers ⟨6, by omega⟩ (by decide))
      have e7 : checkCoefficient v.PAR_P6 "PAR_P6" = none :=
        checkCoefficient_none _ _ (hothers ⟨7, by omega⟩ (by decide))
      have e8 : checkCoefficient (uint16ofInt v.PAR_P7) "PAR_P7" = none :=
        checkCoefficient_none _ _ (hothers ⟨8, by omega⟩ (by decide))
      simp [IsValidCoefficients, Option.orElse, checkedFieldName, s9, e0, e1, e2, e3, e4, e5, e6, e7, e8]
    · have s10 : checkCoefficient (uint16ofInt v.PAR_P9) "PAR_P9" = some "PAR_P9" :=
        checkCoefficient_some _ _ hi
      have e0 : checkCoefficient v.PAR_T1 "PAR_T1" = none :=
        checkCoefficient_none _ _ (hothers ⟨0, by omega⟩ (by decide))
      have e1 : checkCoefficient v.PAR_T2 "PAR_T2" = none :=
        checkCoefficient_none _ _ (hothers ⟨1, by omega⟩ (by decide))
      have e2 : checkCoefficient (uint16ofInt v.PAR_T3) "PAR_T3" = none :=
        checkCoefficient_none _ _ (hothers ⟨2, by omega⟩ (by decide))
      have e3 : checkCoefficient (uint16ofInt v.PAR_P1) "PAR_P1" = none :=
        checkCoefficient_none _ _ (hothers ⟨3, by omega⟩ (by decide))
      have e4 : checkCoefficient (uint16ofInt v.PAR_P2) "PAR_P2" = none :=
        checkCoefficient_none _ _ (hothers ⟨4, by omega⟩ (by decide))
      have e5 : checkCoefficient (uint16ofInt v.PAR_P3) "PAR_P3" = none :=
        checkCoefficient_none _ _ (hothers ⟨5, by omega⟩ (by decide))
      have e6 : checkCoefficient v.PAR_P5 "PAR_P5" = none :=
        checkCoefficient_none _ _ (hothers ⟨6, by omega⟩ (by decide))
      have e7 : checkCoefficient v.PAR_P6 "PAR_P6" = none :=
        checkCoefficient_none _ _ (hothers ⟨7, by omega⟩ (by decide))
      have e8 : checkCoefficient (uint16ofInt v.PAR_P7) "PAR_P7" = none :=
        checkCoefficient_none _ _ (hothers ⟨8, by omega⟩ (by decide))
      have e9 : checkCoefficient (uint16ofInt v.PAR_P8) "PAR_P8" = none :=
        checkCoefficient_none _ _ (hothers ⟨9, by omega⟩ (by decide))
      simp [IsValidCoefficients, Option.orElse, checkedFieldName, s10, e0, e1, e2, e3, e4, e5, e6, e7, e8, e9]
    · have s11 : checkCoefficient (uint16ofInt v.PAR_P10) "PAR_P10" = some "PAR_P10" :=
        checkCoefficient_some _ _ hi
      have e0 : checkCoefficient v.PAR_T1 "PAR_T1" = none :=
        checkCoefficient_none _ _ (hothers ⟨0, by omega⟩ (by decide))
      have e1 : checkCoefficient v.PAR_T2 "PAR_T2" = none :=
        checkCoefficient_none _ _ (hothers ⟨1, by omega⟩ (by decide))
      have e2 : checkCoefficient (uint16ofInt v.PAR_T3) "PAR_T3" = none :=
        checkCoefficient_none _ _ (hothers ⟨2, by omega⟩ (by decide))
      have e3 : checkCoefficient (uint16ofInt v.PAR_P1) "PAR_P1" = none :=
        checkCoefficient_none _ _ (hothers ⟨3, by omega⟩ (by decide))
      have e4 : checkCoefficient (uint16ofInt v.PAR_P2) "PAR_P2" = none :=
        checkCoefficient_none _ _ (hothers ⟨4, by omega⟩ (by decide))
      have e5 : checkCoefficient (uint16ofInt v.PAR_P3) "PAR_P3" = none :=
        checkCoefficient_none _ _ (hothers ⟨5, by omega⟩ (by decide))
      have e6 : checkCoefficient v.PAR_P5 "PAR_P5" = none :=
        checkCoefficient_none _ _ (hothers ⟨6, by omega⟩ (by decide))
      have e7 : checkCoefficient v.PAR_P6 "PAR_P6" = none :=
        checkCoefficient_none _ _ (hothers ⟨7, by omega⟩ (by decide))
      have e8 : checkCoefficient (uint16ofInt v.PAR_P7) "PAR_P7" = none :=
        checkCoefficient_none _ _ (hothers ⟨8, by omega⟩ (by decide))
      have e9 : checkCoefficient (uint16ofInt v.PAR_P8) "PAR_P8" = none :=
        checkCoefficient_none _ _ (hothers ⟨9, by omega⟩ (by decide))
      have e10 : checkCoefficient (uint16ofInt v.PAR_P9) "PAR_P9" = none :=
        checkCoefficient_none _ _ (hothers ⟨10, by omega⟩ (by decide))
      simp [IsValidCoefficients, Option.orElse, checkedFieldName, s11, e0, e1, e2, e3, e4, e5, e6, e7, e8, e9, e10]
    · have s12 : checkCoefficient (uint16ofInt v.PAR_P11) "PAR_P11" = some "PAR_P11" :=
        checkCoefficient_some _ _ hi
      have e0 : checkCoefficient v.PAR_T1 "PAR_T1" = none :=
        checkCoefficient_none _ _ (hothers ⟨0, by omega⟩ (by decide))
      have e1 : checkCoefficient v.PAR_T2 "PAR_T2" = none :=
        checkCoefficient_none _ _ (hothers ⟨1, by omega⟩ (by decide))
      have e2 : checkCoefficient (uint16ofInt v.PAR_T3) "PAR_T3" = none :=
        checkCoefficient_none _ _ (hothers ⟨2, by omega⟩ (by decide))
      have e3 : checkCoefficient (uint16ofInt v.PAR_P1) "PAR_P1" = none :=
        checkCoefficient_none _ _ (hothers ⟨3, by omega⟩ (by decide))
      have e4 : checkCoefficient (uint16ofInt v.PAR_P2) "PAR_P2" = none :=
        checkCoefficient_none _ _ (hothers ⟨4, by omega⟩ (by decide))
      have e5 : checkCoefficient (uint16ofInt v.PAR_P3) "PAR_P3" = none :=
        checkCoefficient_none _ _ (hothers ⟨5, by omega⟩ (by decide))
      have e6 : checkCoefficient v.PAR_P5 "PAR_P5" = none :=
        checkCoefficient_none _ _ (hothers ⟨6, by omega⟩ (by decide))
      have e7 : checkCoefficient v.PAR_P6 "PAR_P6" = none :=
        checkCoefficient_none _ _ (hothers ⟨7, by omega⟩ (by decide))
      have e8 : checkCoefficient (uint16ofInt v.PAR_P7) "PAR_P7" = none :=
        checkCoefficient_none _ _ (hothers ⟨8, by omega⟩ (by decide))
      have e9 : checkCoefficient (uint16ofInt v.PAR_P8) "PAR_P8" = none :=
        checkCoefficient_none _ _ (hothers ⟨9, by omega⟩ (by decide))
      have e10 : checkCoefficient (uint16ofInt v.PAR_P9) "PAR_P9" = none :=
        checkCoefficient_none _ _ (hothers ⟨10, by omega⟩ (by decide))
      have e11 : checkCoefficient (uint16ofInt v.PAR_P10) "PAR_P10" = none :=
        checkCoefficient_none _ _ (hothers ⟨11, by omega⟩ (by decide))
      simp [IsValidCoefficients, Option.orElse, checkedFieldName, s12, e0, e1, e2, e3, e4, e5, e6, e7, e8, e9, e10, e11]

/-- All-ones calibration bytes: every checked coefficient is non-sentinel. -/
def validCoeffFixture : CoeffBME680 :=
  ⟨1, 1, 1, 1, 1, 1, 1, 1, 1, 1, 1, 1, 1, 1, 1, 1, 1, 1, 1, 1, 1⟩

/-- All-ones calibration bytes except `COEF_35 = 0`, forcing the single
coefficient `PAR_T3` to its sentinel value `0`. -/
def singleSentinelFixture : CoeffBME680 :=
  ⟨1, 1, 1, 1, 0, 1, 1, 1, 1, 1, 1, 1, 1, 1, 1, 1, 1, 1, 1, 1, 1⟩

/-- Witness for `isValidCoefficients_sentinel_spec`: the all-ones fixture
validates, and zeroing the single byte behind `PAR_T3` makes validation fail
naming `PAR_T3`. -/
theorem isValidCoefficients_sentinel_spec_witness :
    IsValidCoefficients (some validCoeffFixture) = none ∧
    IsValidCoefficients (some singleSentinelFixture) = some "PAR_T3" :=
  ⟨(isValidCoefficients_sentinel_spec validCoeffFixture).1 (by decide),
   (isValidCoefficients_sentinel_spec singleSentinelFixture).2 ⟨2, by omega⟩
     (by decide) (by decide)⟩

/-! ## Driver construction (NewBMP, src/unnamed/part_000 lines 124-147) -/

/-- Chip-identity register address (src/unnamed/part_000 line 50). -/
def ID_REG : Nat := 0xD0

/-- Modelled from the spec: the per-variant sensor strategy selected by
`NewBMP`'s switch — the variant implementation files behind the
`SensorInterface` are not under src/ — reduced to what `NewBMP` uses: the
expected signature byte (`GetSensorSignature`), the calibration load
(`ReadCoefficients`, returning the deserialized coefficient block), and the
bus operations that load issues. -/
structure SensorImpl where
  signature : Nat
  readCoefficients : I2CTransport → Option (List Nat)
  readCoefficients_ops : I2CTransport → List BusOp

/-- Driver object returned by a successful construction: the variant strategy
together with its loaded calibration block. -/
structure BMP where
  impl : SensorImpl
  coeffs : List Nat

/-- NewBMP (src/unnamed/part_000 lines 124-147): read the chip-identity
register, fail on I/O error, fail with a signature mismatch if the identity
byte differs from the variant's expected signature, then load the calibration
coefficients and return the driver.  The source performs no validation of the
loaded coefficient values. -/
def NewBMP (impl : SensorImpl) (i2c : I2CTransport) : Except DriverError BMP :=
  match i2c.readRegU8 ID_REG with
  | none => Except.error DriverError.ioError
  | some id =>
    if id ≠ impl.signature
    then Except.error (DriverError.signatureMismatch impl.signature id)
    else
      match impl.readCoefficients i2c with
      | none => Except.error DriverError.ioError
      | some cs => Except.ok ⟨impl, cs⟩

/-- Bus operations issued by `NewBMP`: the identity read, followed by the
calibration-load operations only when the signature matched. -/
def NewBMP_ops (impl : SensorImpl) (i2c : I2CTransport) : List BusOp :=
  match i2c.readRegU8 ID_REG with
  | none => [BusOp.readReg ID_REG]
  | some id =>
    if id ≠ impl.signature
    then [BusOp.readReg ID_REG]
    else BusOp.readReg ID_REG :: impl.readCoefficients_ops i2c

/-- C8: for every variant strategy and every transport whose identity byte
differs from the variant's expected signature, `NewBMP` fails with a
signature-mismatch error (returning no driver), and its whole bus trace is
the single identity read: no calibration-block read is performed before
failing. -/
theorem newBMP_signature_mismatch_fails_fast
    (impl : SensorImpl) (i2c : I2CTransport) (id : Nat)
    (hread : i2c.readRegU8 ID_REG = some id) (hne : id ≠ impl.signature) :
    NewBMP impl i2c = Except.error (DriverError.signatureMismatch impl.signature id) ∧
    NewBMP_ops impl i2c = [BusOp.readReg ID_REG] := by
  constructor
  · simp only [NewBMP, hread]
    rw [if_pos hne]
  · simp only [NewBMP_ops, hread]
    rw [if_pos hne]

/-- Strategy fixture expecting signature `0x55` whose calibration load returns
an empty block. -/
def mismatchImpl : SensorImpl :=
  ⟨0x55, fun _ => some [], fun _ => [BusOp.readBytes 0xAA 22]⟩

/-- Witness for `newBMP_signature_mismatch_fails_fast`: a transport reporting
identity `0x58` against expected signature `0x55`. -/
theorem newBMP_signature_mismatch_fails_fast_witness :
    NewBMP mismatchImpl (mkTransport 0x58 [])
        = Except.error (DriverError.signatureMismatch 0x55 0x58) ∧
    NewBMP_ops mismatchImpl (mkTransport 0x58 []) = [BusOp.readReg ID_REG] :=
  newBMP_signature_mismatch_fails_fast mismatchImpl (mkTransport 0x58 []) 0x58 rfl (by decide)

/-- Strategy fixture whose calibration block deserializes to an all-sentinel
(all-zero) coefficient set. -/
def allSentinelImpl : SensorImpl :=
  ⟨0x55, fun _ => some (List.replicate 11 0), fun _ => [BusOp.readBytes 0xAA 22]⟩

/-- C7 counterexample: against a transport with the matching signature whose
calibration block deserializes to an all-sentinel (all-zero) coefficient set,
`NewBMP` succeeds and returns a driver object: construction performs the
calibration load but no validation, contrary to the claim that it fails with
an invalid-calibration error. -/
theorem newBMP_accepts_sentinel_calibration :
    ((List.replicate 11 0).all fun x => decide (isSentinel x)) = true ∧
    NewBMP allSentinelImpl (mkTransport 0x55 [])
        = Except.ok ⟨allSentinelImpl, List.replicate 11 0⟩ :=
  ⟨by decide, rfl⟩

/-- C7 amended: `NewBMP` performs the calibration load but no validation:
for every strategy and transport, construction succeeds whenever the identity
byte matches the expected signature and the calibration read succeeds,
regardless of the loaded coefficient values (sentinel-valued or not);
coefficient validation is a separate `IsValidCoefficients` call the
constructor never makes. -/
theorem newBMP_loads_without_validation
    (impl : SensorImpl) (i2c : I2CTransport) (id : Nat) (cs : List Nat)
    (hread : i2c.readRegU8 ID_REG = some id) (hsig : id = impl.signature)
    (hcoef : impl.readCoefficients i2c = some cs) :
    NewBMP impl i2c = Except.ok ⟨impl, cs⟩ := by
  simp only [NewBMP, hread]
  rw [if_neg (show ¬ id ≠ impl.signature by simp [hsig])]
  simp only [hcoef]

/-- Witness for `newBMP_loads_without_validation` at the all-sentinel fixture. -/
theorem newBMP_loads_without_validation_witness :
    NewBMP allSentinelImpl (mkTransport 0x55 [])
        = Except.ok ⟨allSentinelImpl, List.replicate 11 0⟩ :=
  newBMP_loads_without_validation allSentinelImpl (mkTransport 0x55 []) 0x55
    (List.replicate 11 0) rfl rfl rfl
